import Mathlib

/-!
Shallow embedding of shell-whiz (src/shell_whiz/cli.py): the interactive
confirmation/edit loop `shell_whiz_ask`, the `ask` subcommand entry point
`run_ai_assistant`, and the top-level error mapping in `run`.

Backend call results and interactive user input are modelled as explicit
inputs; console output, backend request lifecycle and process exit are
modelled as an event trace plus an outcome.  Modules of the repository that
are not under src (`shell_whiz/constants.py`, `shell_whiz/openai.py`) are
modelled from the spec, as marked in their doc comments.
-/

namespace ShellWhiz

/-- The kinds of language-model backend requests issued by cli.py:
`translate_nl_to_shell_command`, `edit_shell_command`,
`get_explanation_of_shell_command`, `recognize_dangerous_command`. -/
inductive ReqKind
  | translate
  | edit
  | explain
  | danger
deriving DecidableEq

/-- Observable events of one invocation: backend request lifecycle
(`reqStart` when a request is actually issued, `reqEnd` when it returns or
raises), `createTask` for `asyncio.create_task`, which only schedules the
explanation coroutine — under asyncio, a scheduled coroutine first runs at
the next suspension point of the running code, so with the synchronous
danger check blocking the event loop the explanation request is first
issued at `await explanation_task` — console renders (`printCommand` for
`print_command`, `printWarning` for the rich warning line,
`printExplanation` for `print_explanation`, `printMsg` for plain
`rich.print` messages), interactive prompts (`promptChoice` for
`inquirer.prompt`, `promptText` for `inquirer.text`), shell execution
(`runShell` for `subprocess.run`), the configuration-store startup call
(`configStore` for `shell_whiz_config()`), and `crashNameError` for a read
of a never-assigned Python local. -/
inductive Event
  | reqStart (k : ReqKind)
  | reqEnd (k : ReqKind)
  | createTask (cmd : String)
  | printCommand (cmd : String)
  | printWarning (text : String)
  | printExplanation (text : String)
  | promptChoice
  | promptText
  | runShell (cmd : String)
  | printMsg (msg : String)
  | configStore
  | crashNameError
deriving DecidableEq

/-- Modelled from the spec: `shell_whiz/constants.py` is not under src; §6
requires a dedicated non-zero exit code for unrecoverable core errors such
as translation failure. -/
def SW_ERROR_EXIT_CODE : Nat := 1

/-- Modelled from the spec: `shell_whiz/constants.py` is not under src; §6
requires a dedicated non-zero exit code for invalid CLI arguments, distinct
from the other codes. -/
def INV_CLI_ARGS_EXIT_CODE : Nat := 2

/-- Modelled from the spec: `shell_whiz/constants.py` is not under src; §6
requires a dedicated non-zero exit code shared by all backend/API error
kinds, distinct from the other codes. -/
def OPENAI_ERROR_EXIT_CODE : Nat := 3

/-- Modelled from the spec: the user-facing error label `SW_ERROR` from
`shell_whiz/constants.py`, which is not under src. -/
def SW_ERROR : String := "Error"

/-- Result of `translate_nl_to_shell_command`: a command string, or the
`ShellWhizTranslationError` exception. -/
inductive TranslationResult
  | ok (cmd : String)
  | err
deriving DecidableEq

/-- Result of `edit_shell_command`: a revised command string, or the
`ShellWhizEditError` exception. -/
inductive EditResult
  | ok (cmd : String)
  | err
deriving DecidableEq

/-- Result of `recognize_dangerous_command`: the `(is_dangerous,
dangerous_consequences)` pair, or the `ShellWhizWarningError` exception. -/
inductive DangerResult
  | ok (is_dangerous : Bool) (dangerous_consequences : String)
  | err
deriving DecidableEq

/-- The four menu choices offered by `inquirer.prompt` in cli.py lines
105-110: "Run this command", "Revise query", "Edit manually", "Exit". -/
inductive Choice
  | runCommand
  | reviseQuery
  | editManually
  | exitChoice
deriving DecidableEq

/-- The Python locals of `shell_whiz_ask` that persist across loop
iterations.  `dangerous_consequences` is an `Option` because the Python
variable is unassigned until the first successful classifier call. -/
structure LoopState where
  shell_command : String
  first_run : Bool
  edit_prompt : String
  dangerous_consequences : Option String
deriving DecidableEq

/-- The external inputs consumed by one iteration of the `while True` loop:
the backend results for the edit, danger and explanation calls, the user's
menu choice, and the user's free-text answers to the two `inquirer.text`
prompts. -/
structure IterInput where
  editRes : EditResult
  dangerRes : DangerResult
  explText : String
  choice : Choice
  reviseText : String
  manualText : String
deriving DecidableEq

/-- How one loop iteration ends: continue with a new state, return after
`subprocess.run`, terminate the process via `sys.exit`, or crash with a
Python `NameError` (reading a never-assigned local). -/
inductive IterOutcome
  | next (st : LoopState)
  | executed (cmd : String)
  | exited (code : Nat)
  | crashed
deriving DecidableEq

/-- cli.py lines 65-73: on the first pass only clear `first_run`; afterwards,
when `edit_prompt` is non-empty, call `edit_shell_command` and keep the old
command if it raises `ShellWhizEditError` (the `except ... pass`). -/
def editStep (st : LoopState) (editRes : EditResult) : List Event × LoopState :=
  if st.first_run then
    ([], { st with first_run := false })
  else if st.edit_prompt ≠ ("") then
    match editRes with
    | EditResult.ok c =>
        ([Event.reqStart ReqKind.edit, Event.reqEnd ReqKind.edit],
         { st with shell_command := c })
    | EditResult.err =>
        ([Event.reqStart ReqKind.edit, Event.reqEnd ReqKind.edit], st)
  else
    ([], st)

/-- cli.py lines 81-86: the `try` around `recognize_dangerous_command`.  On
success both `is_dangerous` and `dangerous_consequences` are assigned; on
`ShellWhizWarningError` only `is_dangerous = False` is assigned and
`dangerous_consequences` keeps its previous (possibly unassigned) value. -/
def classifyStep (st : LoopState) (res : DangerResult) : Bool × Option String :=
  match res with
  | DangerResult.ok d c => (d, some c)
  | DangerResult.err => (false, st.dangerous_consequences)

/-- cli.py lines 93-128: `await explanation_task` is the first suspension
point after `asyncio.create_task`, so it is here that the scheduled
explanation coroutine first runs and issues its backend request, which is
then awaited; then print the explanation, reset `edit_prompt`, prompt for
a choice and branch on it. -/
def choiceStep (st : LoopState) (inp : IterInput) (evs : List Event) :
    List Event × IterOutcome :=
  let evs2 := evs ++ [Event.reqStart ReqKind.explain,
    Event.reqEnd ReqKind.explain,
    Event.printExplanation inp.explText, Event.promptChoice]
  let st3 := { st with edit_prompt := ("") }
  match inp.choice with
  | Choice.exitChoice => (evs2, IterOutcome.exited 0)
  | Choice.reviseQuery =>
      (evs2 ++ [Event.promptText],
       IterOutcome.next { st3 with edit_prompt := inp.reviseText })
  | Choice.editManually =>
      (evs2 ++ [Event.promptText],
       IterOutcome.next { st3 with shell_command := inp.manualText })
  | Choice.runCommand =>
      (evs2 ++ [Event.runShell st3.shell_command],
       IterOutcome.executed st3.shell_command)

/-- One iteration of the `while True` loop of `shell_whiz_ask` (cli.py lines
64-128): optional edit, `print_command`, `asyncio.create_task` for the
explanation (which only schedules the coroutine: the synchronous danger
check blocks the event loop, so no explanation request is issued here),
the synchronous danger check, the warning line when `is_dangerous` holds
(a read of `dangerous_consequences`, which crashes with `NameError` if
that local was never assigned), then the explanation await — where the
explanation request is actually issued and completed — its render and the
choice prompt. -/
def loopIter (st : LoopState) (inp : IterInput) : List Event × IterOutcome :=
  let st1 := (editStep st inp.editRes).2
  let isD := (classifyStep st1 inp.dangerRes).1
  let cons := (classifyStep st1 inp.dangerRes).2
  let st2 := { st1 with dangerous_consequences := cons }
  let evs1 := (editStep st inp.editRes).1 ++
    [Event.printCommand st1.shell_command,
    Event.createTask st1.shell_command,
    Event.reqStart ReqKind.danger, Event.reqEnd ReqKind.danger]
  if isD then
    match cons with
    | none => (evs1 ++ [Event.crashNameError], IterOutcome.crashed)
    | some c => choiceStep st2 inp (evs1 ++ [Event.printWarning c])
  else
    choiceStep st2 inp evs1

/-- The `while True` loop of `shell_whiz_ask`, run on a finite script of
per-iteration inputs; with an empty script the loop is still running. -/
def loopRun : LoopState → List IterInput → List Event × IterOutcome
  | st, [] => ([], IterOutcome.next st)
  | st, inp :: rest =>
      match (loopIter st inp).2 with
      | IterOutcome.next st2 =>
          ((loopIter st inp).1 ++ (loopRun st2 rest).1, (loopRun st2 rest).2)
      | out => ((loopIter st inp).1, out)

/-- The error message printed by `shell_whiz_ask` on translation failure
(cli.py line 61). -/
def translationErrorMsg : String :=
  SW_ERROR ++ (": Shell Whiz doesn\x27t know how to do this.")

/-- cli.py lines 54-128: `shell_whiz_ask`.  The translation call is made
first; on `ShellWhizTranslationError` a message is printed and the process
exits with `SW_ERROR_EXIT_CODE` before the loop is entered.  On success the
loop starts with `first_run = True`, an empty `edit_prompt` and an
unassigned `dangerous_consequences`. -/
def shell_whiz_ask (transRes : TranslationResult) (inputs : List IterInput) :
    List Event × IterOutcome :=
  match transRes with
  | TranslationResult.err =>
      ([Event.reqStart ReqKind.translate, Event.reqEnd ReqKind.translate,
        Event.printMsg translationErrorMsg],
       IterOutcome.exited SW_ERROR_EXIT_CODE)
  | TranslationResult.ok cmd =>
      ([Event.reqStart ReqKind.translate, Event.reqEnd ReqKind.translate]
        ++ (loopRun (LoopState.mk cmd true ("") none) inputs).1,
       (loopRun (LoopState.mk cmd true ("") none) inputs).2)

/-- Modelled from the spec: `translate_nl_to_shell_command` lives in
`shell_whiz/openai.py`, which is not under src.  Per §2 and §8 it returns
the backend's command string and fails with `ShellWhizTranslationError`
exactly when no command can be produced (empty backend output), so a
successful translation yields a non-empty command. -/
def translate_nl_to_shell_command (response : String) : TranslationResult :=
  if response = ("") then TranslationResult.err
  else TranslationResult.ok response

/-- The usage-error message printed by `run_ai_assistant` (cli.py
line 137). -/
def usageErrorMsg : String :=
  SW_ERROR ++ (": Please provide a valid prompt.")

/-- The whitespace characters removed by Python's `str.strip()`. -/
def isPyWhitespace (c : Char) : Bool :=
  (c = ' ') || (c = '\t') || (c = '\n') || (c = '\r') ||
    (c = '\x0b') || (c = '\x0c')

/-- Python's `str.strip()`: drop leading and trailing whitespace. -/
def pyStrip (s : String) : String :=
  String.mk
    (((s.data.dropWhile isPyWhitespace).reverse.dropWhile
      isPyWhitespace).reverse)

/-- cli.py lines 131-139: `run_ai_assistant` for the `ask` subcommand.
`shell_whiz_config()` runs first; then the positional words are joined with
spaces and stripped; an empty result prints a usage error and exits with
`INV_CLI_ARGS_EXIT_CODE`; otherwise `shell_whiz_ask` runs on the joined
prompt.  `response` is the backend's reply to the translation request. -/
def run_ai_assistant (promptWords : List String) (response : String)
    (inputs : List IterInput) : List Event × IterOutcome :=
  let shell_command := pyStrip (String.intercalate (" ") promptWords)
  if shell_command = ("") then
    ([Event.configStore, Event.printMsg usageErrorMsg],
     IterOutcome.exited INV_CLI_ARGS_EXIT_CODE)
  else
    (Event.configStore ::
      (shell_whiz_ask (translate_nl_to_shell_command response) inputs).1,
     (shell_whiz_ask (translate_nl_to_shell_command response) inputs).2)

/-- The openai exception classes handled by `run` (cli.py lines 154-198),
one constructor per `except` clause. -/
inductive OpenAIErrorKind
  | apiError
  | timeout
  | apiConnectionError
  | invalidRequestError
  | authenticationError
  | permissionError
  | rateLimitError
  | serviceUnavailableError
  | openAIError
deriving DecidableEq

/-- The user-facing remediation message printed for each openai exception
class (cli.py lines 154-198), transcribed from the source. -/
def openaiErrorMessage : OpenAIErrorKind → String
  | OpenAIErrorKind.apiError => SW_ERROR ++
      (": An error occurred while connecting to the OpenAI API. Please retry your request after a brief wait. The problem is on the side of the OpenAI. Visit https://status.openai.com for more information.")
  | OpenAIErrorKind.timeout => SW_ERROR ++
      (": OpenAI API request timed out. Please retry your request after a brief wait.")
  | OpenAIErrorKind.apiConnectionError => SW_ERROR ++
      (": OpenAI API request failed to connect. Please check your internet connection and try again.")
  | OpenAIErrorKind.invalidRequestError => SW_ERROR ++
      (": Your request was malformed or missing some required parameters, such as a token or an input.")
  | OpenAIErrorKind.authenticationError => SW_ERROR ++
      (": You are not authorized to access the OpenAI API. You may have entered the wrong API key. Your API key is invalid, expired or revoked. Please run [bold green]sw config[/] to set up the API key. Visit https://platform.openai.com/account/api-keys to get your API key.")
  | OpenAIErrorKind.permissionError => SW_ERROR ++
      (": Your API key or token does not have the required scope or role to perform the requested action. Make sure your API key has the appropriate permissions for the action or model accessed.")
  | OpenAIErrorKind.rateLimitError => SW_ERROR ++
      (": OpenAI API request exceeded rate limit. If you are on a free plan, please upgrade to a paid plan for a better experience with Shell Whiz. Visit https://platform.openai.com/account/billing/limits for more information.")
  | OpenAIErrorKind.serviceUnavailableError => SW_ERROR ++
      (": OpenAI API request failed due to a temporary server-side issue. Please retry your request after a brief wait. The problem is on the side of the OpenAI. Visit https://status.openai.com for more information.")
  | OpenAIErrorKind.openAIError => SW_ERROR ++
      (": An unknown error occurred while connecting to the OpenAI API. Please retry your request after a brief wait.")

/-- How `asyncio.run(main())` ends, as seen by the `try` in `run`: normal
completion, a `sys.exit(code)` unwinding as `SystemExit`, an openai
exception, or `KeyboardInterrupt`. -/
inductive MainResult
  | finished
  | exitedWith (code : Nat)
  | openaiError (k : OpenAIErrorKind)
  | interrupted
deriving DecidableEq

/-- cli.py lines 151-201: the top-level `run` handler, mapping each way
`main` can end to printed output and a process exit status.  Every openai
exception kind exits with the shared `OPENAI_ERROR_EXIT_CODE` after its own
message; `KeyboardInterrupt` prints a notice and exits 0; `SystemExit`
passes through; normal completion exits 0. -/
def run (m : MainResult) : List Event × Nat :=
  match m with
  | MainResult.finished => ([], 0)
  | MainResult.exitedWith code => ([], code)
  | MainResult.openaiError k =>
      ([Event.printMsg (openaiErrorMessage k)], OPENAI_ERROR_EXIT_CODE)
  | MainResult.interrupted => ([Event.printMsg ("\nExiting...")], 0)

/-- The constructor tags of `Event`, used by the recognizers below. -/
inductive EventTag
  | reqStart
  | reqEnd
  | createTask
  | printCommand
  | printWarning
  | printExplanation
  | promptChoice
  | promptText
  | runShell
  | printMsg
  | configStore
  | crashNameError
deriving DecidableEq

/-- The constructor tag of an event. -/
@[simp] def Event.tag : Event → EventTag
  | Event.reqStart _ => EventTag.reqStart
  | Event.reqEnd _ => EventTag.reqEnd
  | Event.createTask _ => EventTag.createTask
  | Event.printCommand _ => EventTag.printCommand
  | Event.printWarning _ => EventTag.printWarning
  | Event.printExplanation _ => EventTag.printExplanation
  | Event.promptChoice => EventTag.promptChoice
  | Event.promptText => EventTag.promptText
  | Event.runShell _ => EventTag.runShell
  | Event.printMsg _ => EventTag.printMsg
  | Event.configStore => EventTag.configStore
  | Event.crashNameError => EventTag.crashNameError

/-- Recognizer for events with a given constructor tag. -/
@[simp] def Event.hasTag (t : EventTag) (e : Event) : Bool :=
  Event.tag e = t

/-- Recognizer for the `reqStart` event of one request kind. -/
@[simp] def Event.isReqStartOf (k : ReqKind) (e : Event) : Bool :=
  e = Event.reqStart k

/-- Recognizer for the `reqEnd` event of one request kind. -/
@[simp] def Event.isReqEndOf (k : ReqKind) (e : Event) : Bool :=
  e = Event.reqEnd k

/-- `outstandingBounded b c tr` checks that, starting from `c` outstanding
backend requests, the running number of outstanding requests along `tr`
never exceeds `b`. -/
def outstandingBounded (b : Nat) : Nat → List Event → Bool
  | _, [] => true
  | c, e :: rest =>
      if Event.tag e = EventTag.reqStart then
        decide (c + 1 ≤ b) && outstandingBounded b (c + 1) rest
      else if Event.tag e = EventTag.reqEnd then
        outstandingBounded b (c - 1) rest
      else
        outstandingBounded b c rest

/-- The command rendered by `print_command` in an iteration: the loop
command after the optional edit step. -/
def renderedCommand (st : LoopState) (inp : IterInput) : String :=
  ((editStep st inp.editRes).2).shell_command

/-- The `is_dangerous` flag in force after the classifier step of an
iteration. -/
def dangerFlag (st : LoopState) (inp : IterInput) : Bool :=
  (classifyStep (editStep st inp.editRes).2 inp.dangerRes).1

/-- The warning events an iteration renders, by classifier result. -/
def warnEvents (inp : IterInput) : List Event :=
  match inp.dangerRes with
  | DangerResult.ok true c => [Event.printWarning c]
  | DangerResult.ok false _ => []
  | DangerResult.err => []

/-- The events an iteration appends after the choice prompt, by choice. -/
def tailEvents (inp : IterInput) (cmd : String) : List Event :=
  match inp.choice with
  | Choice.exitChoice => []
  | Choice.reviseQuery => [Event.promptText]
  | Choice.editManually => [Event.promptText]
  | Choice.runCommand => [Event.runShell cmd]

/-- The loop state as it stands at the choice prompt of an iteration: after
the optional edit, the classifier assignment and the `edit_prompt = ""`
reset. -/
def postState (st : LoopState) (inp : IterInput) : LoopState :=
  { (editStep st inp.editRes).2 with
      dangerous_consequences :=
        (classifyStep (editStep st inp.editRes).2 inp.dangerRes).2,
      edit_prompt := ("") }

/-- The outcome of an iteration, by user choice. -/
def iterOutcome (st : LoopState) (inp : IterInput) : IterOutcome :=
  match inp.choice with
  | Choice.exitChoice => IterOutcome.exited 0
  | Choice.reviseQuery =>
      IterOutcome.next { postState st inp with edit_prompt := inp.reviseText }
  | Choice.editManually =>
      IterOutcome.next { postState st inp with
        shell_command := inp.manualText }
  | Choice.runCommand => IterOutcome.executed (renderedCommand st inp)

/-- A concrete mid-session loop state, used to witness the per-iteration
theorems. -/
def sampleState : LoopState :=
  LoopState.mk ("ls -la") false ("sort by size") none

/-- A concrete iteration input whose edit call fails. -/
def inputEditErr : IterInput :=
  IterInput.mk EditResult.err (DangerResult.ok false (""))
    ("lists files in long format") Choice.exitChoice ("") ("")

/-- A concrete iteration input whose classifier call fails. -/
def inputDangerErr : IterInput :=
  IterInput.mk (EditResult.ok ("ls")) DangerResult.err
    ("lists files") Choice.runCommand ("") ("")

/-- A concrete iteration input with a dangerous verdict that chooses
"Revise query" and then submits an empty revision instruction. -/
def inputReviseEmpty : IterInput :=
  IterInput.mk (EditResult.ok ("ls")) (DangerResult.ok true
    ("deletes all files")) ("explains the command") Choice.reviseQuery
    ("") ("")

set_option maxRecDepth 8000

set_option maxHeartbeats 1000000

/-- Normal form of an iteration's event trace: edit events, then the
command render, the explanation task creation (no request yet), the
synchronous danger check, the warning segment, the explanation request
issued and awaited at the `await`, its render, the choice prompt, and the
choice-dependent tail. -/
theorem loopIter_trace (st : LoopState) (inp : IterInput) :
    (loopIter st inp).1 =
      (editStep st inp.editRes).1 ++
      Event.printCommand (renderedCommand st inp) ::
      Event.createTask (renderedCommand st inp) ::
      Event.reqStart ReqKind.danger :: Event.reqEnd ReqKind.danger ::
      (warnEvents inp ++
        Event.reqStart ReqKind.explain ::
        Event.reqEnd ReqKind.explain ::
        Event.printExplanation inp.explText :: Event.promptChoice ::
        tailEvents inp (renderedCommand st inp)) := by
  rcases st with ⟨sc, fr, ep, dc⟩
  rcases inp with ⟨er, dr, ex, ch, rt, mt⟩
  rcases er with c | _ <;> rcases dr with ⟨_ | _, cs⟩ | _ <;> rcases ch <;>
    rcases fr <;> rcases dc with _ | dcv <;>
    simp [loopIter, editStep, classifyStep, choiceStep, renderedCommand,
      warnEvents, tailEvents]

/-- Normal form of an iteration's outcome. -/
theorem loopIter_snd (st : LoopState) (inp : IterInput) :
    (loopIter st inp).2 = iterOutcome st inp := by
  rcases st with ⟨sc, fr, ep, dc⟩
  rcases inp with ⟨er, dr, ex, ch, rt, mt⟩
  rcases er with c | _ <;> rcases dr with ⟨_ | _, cs⟩ | _ <;> rcases ch <;>
    rcases fr <;> rcases dc with _ | dcv <;>
    simp [loopIter, editStep, classifyStep, choiceStep, iterOutcome,
      postState, renderedCommand]

/-- The edit step emits either no events or exactly one edit request. -/
theorem editStep_trace_cases (st : LoopState) (er : EditResult) :
    (editStep st er).1 = [] ∨
      (editStep st er).1 =
        [Event.reqStart ReqKind.edit, Event.reqEnd ReqKind.edit] := by
  unfold editStep
  by_cases h1 : st.first_run = true
  · simp [h1]
  · by_cases h2 : st.edit_prompt = ("")
    · simp [h1, h2]
    · rcases er with c | _ <;> simp [h1, h2]

/-- A non-empty loop run starts with the first iteration's events. -/
theorem loopRun_cons_prefix (st : LoopState) (inp : IterInput)
    (rest : List IterInput) :
    ∃ t, (loopRun st (inp :: rest)).1 = (loopIter st inp).1 ++ t := by
  cases h : (loopIter st inp).2 <;> simp [loopRun, h]

/-- After the edit step the `first_run` flag is always clear. -/
theorem editStep_first_run (st : LoopState) (er : EditResult) :
    ((editStep st er).2).first_run = false := by
  cases hfr : st.first_run <;> by_cases h2 : st.edit_prompt = ("") <;>
    rcases er with c | _ <;> simp [editStep, hfr, h2]

/-- Past the first pass, an empty `edit_prompt` makes the edit step a
no-op. -/
theorem editStep_skip (st : LoopState) (er : EditResult)
    (h1 : st.first_run = false) (h2 : st.edit_prompt = ("")) :
    editStep st er = ([], st) := by
  simp [editStep, h1, h2]

/-- C1: in every iteration of the interaction loop, the rendered output
follows the fixed order: the command text is printed first, then the danger
warning (present exactly when the danger assessment is dangerous), then the
explanation text, and only then the choice prompt; each of the command
render, explanation render and choice prompt occurs exactly once. -/
theorem c1_render_order (st : LoopState) (inp : IterInput) :
    ((loopIter st inp).1.countP (Event.hasTag EventTag.printCommand) = 1) ∧
    ((loopIter st inp).1.countP (Event.hasTag EventTag.printExplanation)
      = 1) ∧
    ((loopIter st inp).1.countP (Event.hasTag EventTag.promptChoice) = 1) ∧
    ((loopIter st inp).1.countP (Event.hasTag EventTag.printWarning) =
      if dangerFlag st inp then 1 else 0) ∧
    ((loopIter st inp).1.findIdx (Event.hasTag EventTag.printCommand) <
      (loopIter st inp).1.findIdx (Event.hasTag EventTag.printExplanation)) ∧
    ((loopIter st inp).1.findIdx (Event.hasTag EventTag.printExplanation) <
      (loopIter st inp).1.findIdx (Event.hasTag EventTag.promptChoice)) ∧
    (dangerFlag st inp = true →
      (loopIter st inp).1.findIdx (Event.hasTag EventTag.printCommand) <
        (loopIter st inp).1.findIdx (Event.hasTag EventTag.printWarning) ∧
      (loopIter st inp).1.findIdx (Event.hasTag EventTag.printWarning) <
        (loopIter st inp).1.findIdx (Event.hasTag EventTag.printExplanation))
    := by
  rw [loopIter_trace]
  rcases editStep_trace_cases st inp.editRes with he | he <;>
  rcases hd : inp.dangerRes with ⟨_ | _, cs⟩ | _ <;>
  rcases hc : inp.choice with _ | _ | _ | _ <;>
    simp [he, hd, hc, warnEvents, tailEvents, dangerFlag, classifyStep,
      List.countP_cons, List.countP_append, List.findIdx_cons]

/-- Witness for C1 at a concrete state and input with a dangerous
verdict. -/
theorem c1_render_order_witness :
    ((loopIter sampleState inputReviseEmpty).1.countP
      (Event.hasTag EventTag.printCommand) = 1) ∧
    ((loopIter sampleState inputReviseEmpty).1.countP
      (Event.hasTag EventTag.printExplanation) = 1) ∧
    ((loopIter sampleState inputReviseEmpty).1.countP
      (Event.hasTag EventTag.promptChoice) = 1) ∧
    ((loopIter sampleState inputReviseEmpty).1.countP
      (Event.hasTag EventTag.printWarning) =
      if dangerFlag sampleState inputReviseEmpty then 1 else 0) ∧
    ((loopIter sampleState inputReviseEmpty).1.findIdx
        (Event.hasTag EventTag.printCommand) <
      (loopIter sampleState inputReviseEmpty).1.findIdx
        (Event.hasTag EventTag.printExplanation)) ∧
    ((loopIter sampleState inputReviseEmpty).1.findIdx
        (Event.hasTag EventTag.printExplanation) <
      (loopIter sampleState inputReviseEmpty).1.findIdx
        (Event.hasTag EventTag.promptChoice)) ∧
    (dangerFlag sampleState inputReviseEmpty = true →
      (loopIter sampleState inputReviseEmpty).1.findIdx
          (Event.hasTag EventTag.printCommand) <
        (loopIter sampleState inputReviseEmpty).1.findIdx
          (Event.hasTag EventTag.printWarning) ∧
      (loopIter sampleState inputReviseEmpty).1.findIdx
          (Event.hasTag EventTag.printWarning) <
        (loopIter sampleState inputReviseEmpty).1.findIdx
          (Event.hasTag EventTag.printExplanation)) :=
  c1_render_order sampleState inputReviseEmpty

/-- C2: on `ShellWhizTranslationError` the invocation prints the dedicated
message and exits with the dedicated unrecoverable-error exit code, and the
interaction loop is never entered: no command render, no choice prompt, and
no classifier, explainer or editor request occurs. -/
theorem c2_translation_failure_fatal (inputs : List IterInput) :
    shell_whiz_ask TranslationResult.err inputs =
      ([Event.reqStart ReqKind.translate, Event.reqEnd ReqKind.translate,
        Event.printMsg translationErrorMsg],
       IterOutcome.exited SW_ERROR_EXIT_CODE) ∧
    SW_ERROR_EXIT_CODE ≠ 0 ∧
    SW_ERROR_EXIT_CODE ≠ INV_CLI_ARGS_EXIT_CODE ∧
    SW_ERROR_EXIT_CODE ≠ OPENAI_ERROR_EXIT_CODE ∧
    ((shell_whiz_ask TranslationResult.err inputs).1.countP
      (Event.hasTag EventTag.printCommand) = 0) ∧
    ((shell_whiz_ask TranslationResult.err inputs).1.countP
      (Event.hasTag EventTag.promptChoice) = 0) ∧
    ((shell_whiz_ask TranslationResult.err inputs).1.countP
      (Event.isReqStartOf ReqKind.danger) = 0) ∧
    ((shell_whiz_ask TranslationResult.err inputs).1.countP
      (Event.isReqStartOf ReqKind.explain) = 0) ∧
    ((shell_whiz_ask TranslationResult.err inputs).1.countP
      (Event.isReqStartOf ReqKind.edit) = 0) := by
  simp [shell_whiz_ask, SW_ERROR_EXIT_CODE, INV_CLI_ARGS_EXIT_CODE,
    OPENAI_ERROR_EXIT_CODE, List.countP_cons]

/-- C3: when the Command Editor call fails, the command after the failed
edit equals the command before it (the rendered command is the prior one),
the editor was indeed called, and the loop continues to the render and the
choice prompt. -/
theorem c3_edit_failure_retains_command (st : LoopState) (inp : IterInput)
    (h1 : st.first_run = false) (h2 : st.edit_prompt ≠ (""))
    (h3 : inp.editRes = EditResult.err) :
    renderedCommand st inp = st.shell_command ∧
    Event.printCommand st.shell_command ∈ (loopIter st inp).1 ∧
    Event.reqStart ReqKind.edit ∈ (loopIter st inp).1 ∧
    Event.promptChoice ∈ (loopIter st inp).1 := by
  have hr : renderedCommand st inp = st.shell_command := by
    simp [renderedCommand, editStep, h1, h2, h3]
  refine ⟨hr, ?_, ?_, ?_⟩ <;> rw [loopIter_trace] <;>
    simp [hr, editStep, h1, h2, h3]

/-- Witness for C3 at a concrete mid-session state whose edit call
fails. -/
theorem c3_edit_failure_retains_command_witness :
    sampleState.first_run = false ∧
    sampleState.edit_prompt ≠ ("") ∧
    inputEditErr.editRes = EditResult.err ∧
    (renderedCommand sampleState inputEditErr =
      sampleState.shell_command ∧
    Event.printCommand sampleState.shell_command ∈
      (loopIter sampleState inputEditErr).1 ∧
    Event.reqStart ReqKind.edit ∈ (loopIter sampleState inputEditErr).1 ∧
    Event.promptChoice ∈ (loopIter sampleState inputEditErr).1) :=
  ⟨rfl, by decide, rfl,
    c3_edit_failure_retains_command sampleState inputEditErr rfl
      (by decide) rfl⟩

/-- C4: when the Safety Classifier fails, the danger flag defaults to
false, no warning is displayed, the explanation is awaited and displayed,
the choice prompt is reached, and neither the loop nor the process is
terminated by the failure (a process exit in that iteration happens only
on the user's explicit "Exit" choice). -/
theorem c4_classifier_failure_degrades (st : LoopState) (inp : IterInput)
    (h : inp.dangerRes = DangerResult.err) :
    dangerFlag st inp = false ∧
    ((loopIter st inp).1.countP (Event.hasTag EventTag.printWarning) = 0) ∧
    Event.reqEnd ReqKind.explain ∈ (loopIter st inp).1 ∧
    Event.printExplanation inp.explText ∈ (loopIter st inp).1 ∧
    Event.promptChoice ∈ (loopIter st inp).1 ∧
    (loopIter st inp).2 ≠ IterOutcome.crashed ∧
    (∀ code, (loopIter st inp).2 = IterOutcome.exited code →
      inp.choice = Choice.exitChoice) := by
  rw [loopIter_trace, loopIter_snd]
  rcases editStep_trace_cases st inp.editRes with he | he <;>
  rcases hc : inp.choice with _ | _ | _ | _ <;>
    simp [he, hc, h, warnEvents, tailEvents, iterOutcome, dangerFlag,
      classifyStep, List.countP_cons, List.countP_append]

/-- Witness for C4 at a concrete state whose classifier call fails. -/
theorem c4_classifier_failure_degrades_witness :
    inputDangerErr.dangerRes = DangerResult.err ∧
    (dangerFlag sampleState inputDangerErr = false ∧
    ((loopIter sampleState inputDangerErr).1.countP
      (Event.hasTag EventTag.printWarning) = 0) ∧
    Event.reqEnd ReqKind.explain ∈ (loopIter sampleState inputDangerErr).1 ∧
    Event.printExplanation inputDangerErr.explText ∈
      (loopIter sampleState inputDangerErr).1 ∧
    Event.promptChoice ∈ (loopIter sampleState inputDangerErr).1 ∧
    (loopIter sampleState inputDangerErr).2 ≠ IterOutcome.crashed ∧
    (∀ code, (loopIter sampleState inputDangerErr).2 =
        IterOutcome.exited code →
      inputDangerErr.choice = Choice.exitChoice)) :=
  ⟨rfl, c4_classifier_failure_degrades sampleState inputDangerErr rfl⟩

/-- C5: choosing "Revise query" and submitting an empty revision
instruction leaves the command unchanged, and the next iteration renders
the same command text while making no editor call. -/
theorem c5_empty_revision_noop (st : LoopState) (inp inp2 : IterInput)
    (h1 : inp.choice = Choice.reviseQuery) (h2 : inp.reviseText = ("")) :
    ∃ st2, (loopIter st inp).2 = IterOutcome.next st2 ∧
      st2.shell_command = renderedCommand st inp ∧
      st2.edit_prompt = ("") ∧
      renderedCommand st2 inp2 = renderedCommand st inp ∧
      ((loopIter st2 inp2).1.countP (Event.isReqStartOf ReqKind.edit) = 0) ∧
      Event.printCommand (renderedCommand st inp) ∈ (loopIter st2 inp2).1
    := by
  have hfr := editStep_first_run st inp.editRes
  have hst2fr : ({ postState st inp with
      edit_prompt := inp.reviseText } : LoopState).first_run = false := by
    simp [postState, hfr]
  have hst2ep : ({ postState st inp with
      edit_prompt := inp.reviseText } : LoopState).edit_prompt = ("") := h2
  have hskip := editStep_skip _ inp2.editRes hst2fr hst2ep
  have hrc : renderedCommand
      { postState st inp with edit_prompt := inp.reviseText } inp2 =
      renderedCommand st inp := by
    simp only [renderedCommand, hskip]
    simp [postState]
  refine ⟨{ postState st inp with edit_prompt := inp.reviseText },
    ?_, ?_, ?_, hrc, ?_, ?_⟩
  · rw [loopIter_snd]; simp [iterOutcome, h1]
  · simp [postState, renderedCommand]
  · simp [h2]
  · rw [loopIter_trace, hskip]
    rcases hd : inp2.dangerRes with ⟨_ | _, cs⟩ | _ <;>
    rcases hc : inp2.choice with _ | _ | _ | _ <;>
      simp [hd, hc, warnEvents, tailEvents,
        List.countP_cons, List.countP_append]
  · rw [loopIter_trace, hrc]
    simp

/-- Witness for C5: a "Revise query" choice with an empty instruction at a
concrete state, followed by a concrete next iteration. -/
theorem c5_empty_revision_noop_witness :
    inputReviseEmpty.choice = Choice.reviseQuery ∧
    inputReviseEmpty.reviseText = ("") ∧
    (∃ st2, (loopIter sampleState inputReviseEmpty).2 =
        IterOutcome.next st2 ∧
      st2.shell_command = renderedCommand sampleState inputReviseEmpty ∧
      st2.edit_prompt = ("") ∧
      renderedCommand st2 inputEditErr =
        renderedCommand sampleState inputReviseEmpty ∧
      ((loopIter st2 inputEditErr).1.countP
        (Event.isReqStartOf ReqKind.edit) = 0) ∧
      Event.printCommand (renderedCommand sampleState inputReviseEmpty) ∈
        (loopIter st2 inputEditErr).1) :=
  ⟨rfl, rfl,
    c5_empty_revision_noop sampleState inputReviseEmpty inputEditErr rfl rfl⟩

/-- C6: a successful translation yields a non-empty command string, and it
is this non-empty command that the loop's first render displays. -/
theorem c6_translation_success_nonempty (response cmd : String)
    (inp : IterInput) (rest : List IterInput)
    (h : translate_nl_to_shell_command response = TranslationResult.ok cmd) :
    cmd ≠ ("") ∧
    (shell_whiz_ask (translate_nl_to_shell_command response)
        (inp :: rest)).1.find? (Event.hasTag EventTag.printCommand) =
      some (Event.printCommand cmd) := by
  by_cases hre : response = ("")
  · simp [translate_nl_to_shell_command, hre] at h
  · have hcmd : cmd = response := by
      simp [translate_nl_to_shell_command, hre] at h
      exact h.symm
    refine ⟨by rw [hcmd]; exact hre, ?_⟩
    rw [h]
    obtain ⟨t, ht⟩ :=
      loopRun_cons_prefix (LoopState.mk cmd true ("") none) inp rest
    simp only [shell_whiz_ask, ht]
    rw [loopIter_trace]
    have hr : renderedCommand (LoopState.mk cmd true ("") none) inp =
        cmd := by
      simp [renderedCommand, editStep]
    have he : (editStep (LoopState.mk cmd true ("") none) inp.editRes).1 =
        [] := by
      simp [editStep]
    rw [hr, he]
    simp

/-- Witness for C6 at a concrete backend response. -/
theorem c6_translation_success_nonempty_witness :
    translate_nl_to_shell_command ("ls -la") =
      TranslationResult.ok ("ls -la") ∧
    ((("ls -la" : String) ≠ ("")) ∧
    (shell_whiz_ask (translate_nl_to_shell_command ("ls -la"))
        (inputEditErr :: ([]))).1.find? (Event.hasTag EventTag.printCommand)
      = some (Event.printCommand ("ls -la"))) :=
  ⟨rfl, c6_translation_success_nonempty ("ls -la") ("ls -la") inputEditErr
    ([]) rfl⟩

/-- C7: for the `ask` subcommand the positional words are joined into one
prompt string; when that string is empty after stripping, the process
prints a usage error and exits with the dedicated invalid-arguments exit
code, distinct from the general error code, and no language-model backend
request is started. -/
theorem c7_empty_prompt_usage_error (promptWords : List String)
    (response : String) (inputs : List IterInput)
    (h : pyStrip (String.intercalate (" ") promptWords) = ("")) :
    run_ai_assistant promptWords response inputs =
      ([Event.configStore, Event.printMsg usageErrorMsg],
       IterOutcome.exited INV_CLI_ARGS_EXIT_CODE) ∧
    INV_CLI_ARGS_EXIT_CODE ≠ SW_ERROR_EXIT_CODE ∧
    INV_CLI_ARGS_EXIT_CODE ≠ OPENAI_ERROR_EXIT_CODE ∧
    INV_CLI_ARGS_EXIT_CODE ≠ 0 ∧
    (∀ k, Event.reqStart k ∉
      (run_ai_assistant promptWords response inputs).1) := by
  simp [run_ai_assistant, h, INV_CLI_ARGS_EXIT_CODE, SW_ERROR_EXIT_CODE,
    OPENAI_ERROR_EXIT_CODE]

/-- Witness for C7 at a concrete argument list of whitespace-only
words. -/
theorem c7_empty_prompt_usage_error_witness :
    pyStrip (String.intercalate (" ") ([" ", "  "])) = ("") ∧
    (run_ai_assistant ([" ", "  "]) ("ls") ([]) =
      ([Event.configStore, Event.printMsg usageErrorMsg],
       IterOutcome.exited INV_CLI_ARGS_EXIT_CODE) ∧
    INV_CLI_ARGS_EXIT_CODE ≠ SW_ERROR_EXIT_CODE ∧
    INV_CLI_ARGS_EXIT_CODE ≠ OPENAI_ERROR_EXIT_CODE ∧
    INV_CLI_ARGS_EXIT_CODE ≠ 0 ∧
    (∀ k, Event.reqStart k ∉
      (run_ai_assistant ([" ", "  "]) ("ls") ([])).1)) :=
  ⟨by decide,
    c7_empty_prompt_usage_error ([" ", "  "]) ("ls") ([]) (by decide)⟩

/-- C8: every openai error kind caught at the top level exits with the one
shared dedicated non-zero exit code, while the printed remediation message
is distinct for each kind. -/
theorem c8_openai_errors_shared_code :
    (∀ k, run (MainResult.openaiError k) =
      ([Event.printMsg (openaiErrorMessage k)], OPENAI_ERROR_EXIT_CODE)) ∧
    OPENAI_ERROR_EXIT_CODE ≠ 0 ∧
    OPENAI_ERROR_EXIT_CODE ≠ SW_ERROR_EXIT_CODE ∧
    OPENAI_ERROR_EXIT_CODE ≠ INV_CLI_ARGS_EXIT_CODE ∧
    Function.Injective openaiErrorMessage := by
  refine ⟨fun k => rfl, by decide, by decide, by decide, ?_⟩
  intro a b hab
  cases a <;> cases b <;> simp_all [openaiErrorMessage, SW_ERROR]

/-- C9: refuted by the code — the explanation request and the danger-check
request are strictly sequential, never in flight together.  In every
iteration the explanation task is created (`asyncio.create_task`, line 77)
before the danger check starts, but `recognize_dangerous_command` is
called synchronously (line 82, no `await`) and blocks the event loop, so
the scheduled coroutine first runs — and its backend request is first
issued, then completed — at `await explanation_task` (line 94), strictly
after the danger check has completed; consequently at most one backend
request is ever outstanding at any point of the iteration. -/
theorem c9_requests_sequential (st : LoopState) (inp : IterInput) :
    ((loopIter st inp).1.countP (Event.hasTag EventTag.createTask) = 1) ∧
    ((loopIter st inp).1.countP (Event.isReqStartOf ReqKind.explain) = 1) ∧
    ((loopIter st inp).1.countP (Event.isReqEndOf ReqKind.explain) = 1) ∧
    ((loopIter st inp).1.countP (Event.isReqStartOf ReqKind.danger) = 1) ∧
    ((loopIter st inp).1.countP (Event.isReqEndOf ReqKind.danger) = 1) ∧
    ((loopIter st inp).1.findIdx (Event.hasTag EventTag.createTask) <
      (loopIter st inp).1.findIdx (Event.isReqStartOf ReqKind.danger)) ∧
    ((loopIter st inp).1.findIdx (Event.isReqEndOf ReqKind.danger) <
      (loopIter st inp).1.findIdx (Event.isReqStartOf ReqKind.explain)) ∧
    (outstandingBounded 1 0 (loopIter st inp).1 = true) := by
  rw [loopIter_trace]
  rcases editStep_trace_cases st inp.editRes with he | he <;>
  rcases hd : inp.dangerRes with ⟨_ | _, cs⟩ | _ <;>
  rcases hc : inp.choice with _ | _ | _ | _ <;>
    simp [he, hd, hc, warnEvents, tailEvents, outstandingBounded,
      List.countP_cons, List.countP_append, List.findIdx_cons]

/-- C10: when the classifier call fails, the warning branch that reads the
`dangerous_consequences` local is unreachable: no warning is rendered, and
the `NameError` that reading the never-assigned local would raise cannot
occur. -/
theorem c10_consequences_never_accessed (st : LoopState) (inp : IterInput)
    (h : inp.dangerRes = DangerResult.err) :
    Event.crashNameError ∉ (loopIter st inp).1 ∧
    (loopIter st inp).2 ≠ IterOutcome.crashed ∧
    ((loopIter st inp).1.countP (Event.hasTag EventTag.printWarning) = 0)
    := by
  rw [loopIter_trace, loopIter_snd]
  rcases editStep_trace_cases st inp.editRes with he | he <;>
  rcases hc : inp.choice with _ | _ | _ | _ <;>
    simp [he, hc, h, warnEvents, tailEvents, iterOutcome,
      List.countP_cons, List.countP_append]

/-- Witness for C10 at a concrete state, with an unassigned
`dangerous_consequences`, whose classifier call fails. -/
theorem c10_consequences_never_accessed_witness :
    inputDangerErr.dangerRes = DangerResult.err ∧
    (Event.crashNameError ∉ (loopIter sampleState inputDangerErr).1 ∧
    (loopIter sampleState inputDangerErr).2 ≠ IterOutcome.crashed ∧
    ((loopIter sampleState inputDangerErr).1.countP
      (Event.hasTag EventTag.printWarning) = 0)) :=
  ⟨rfl, c10_consequences_never_accessed sampleState inputDangerErr rfl⟩

end ShellWhiz
